import Mathlib

/-
Verification of the 6-DOF robot-arm kinematics core of this repository
(fk_helper.py and the kinematics part of step_viewer.py), embedded
shallowly over the real numbers.  Machine floating point is modelled by ℝ;
numpy trigonometric functions by Mathlib's Real.cos / Real.sin /
Real.arctan; numpy.arctan2 by an explicit quadrant-aware definition below.
-/

noncomputable section

open Real

/-- Degrees to radians, as `np.deg2rad` / `math.radians`. -/
def deg2rad (x : ℝ) : ℝ := x * Real.pi / 180

/-- Radians to degrees, as `np.degrees` / `t * 180 / np.pi`. -/
def rad2deg (x : ℝ) : ℝ := x * 180 / Real.pi

/-- Two-argument arctangent with the quadrant convention of `numpy.arctan2`
(ℝ has no signed zeros, so the x = −0.0 rows of the IEEE table collapse
onto x = 0). -/
def atan2 (y x : ℝ) : ℝ :=
  if 0 < x then Real.arctan (y / x)
  else if x < 0 then
    (if 0 ≤ y then Real.arctan (y / x) + Real.pi else Real.arctan (y / x) - Real.pi)
  else
    (if 0 < y then Real.pi / 2 else if y < 0 then -(Real.pi / 2) else 0)

lemma atan2_of_pos {x : ℝ} (hx : 0 < x) (y : ℝ) : atan2 y x = Real.arctan (y / x) := by
  simp [atan2, hx]

lemma atan2_zero_zero : atan2 0 0 = 0 := by
  simp [atan2]

lemma atan2_pos_zero {y : ℝ} (hy : 0 < y) : atan2 y 0 = Real.pi / 2 := by
  simp [atan2, hy, not_lt.mpr (le_of_lt hy)]

/-- With a nonnegative second argument, `atan2` lands in [−π/2, π/2]. -/
lemma atan2_mem_of_nonneg {x : ℝ} (hx : 0 ≤ x) (y : ℝ) :
    -(Real.pi / 2) ≤ atan2 y x ∧ atan2 y x ≤ Real.pi / 2 := by
  have hpi : 0 < Real.pi / 2 := by positivity
  rcases lt_or_eq_of_le hx with hx' | hx'
  · rw [atan2_of_pos hx']
    exact ⟨le_of_lt (Real.neg_pi_div_two_lt_arctan _), le_of_lt (Real.arctan_lt_pi_div_two _)⟩
  · subst hx'
    unfold atan2
    rcases lt_trichotomy 0 y with hy | hy | hy
    · rw [if_neg (lt_irrefl 0), if_neg (lt_irrefl 0), if_pos hy]
      exact ⟨by linarith, le_refl _⟩
    · rw [if_neg (lt_irrefl 0), if_neg (lt_irrefl 0),
        if_neg (by rw [← hy]; exact lt_irrefl 0), if_neg (by rw [← hy]; exact lt_irrefl 0)]
      exact ⟨by linarith, by linarith⟩
    · rw [if_neg (lt_irrefl 0), if_neg (lt_irrefl 0),
        if_neg (not_lt.mpr (le_of_lt hy)), if_pos hy]
      exact ⟨le_refl _, by linarith⟩

/-- A 4x4 real matrix (row index first), the value carried by a numpy
4x4 `ndarray` in the kinematics code. -/
abbrev Mat4 := Fin 4 → Fin 4 → ℝ

/-- The 4x4 identity matrix (`np.eye(4)`). -/
def id4 : Mat4 := ![![1,0,0,0], ![0,1,0,0], ![0,0,1,0], ![0,0,0,1]]

/-- Product of two 4x4 matrices, numpy's `A @ B`, written as the explicit
four-term dot products. -/
def mul4 (A B : Mat4) : Mat4 := fun i k =>
  A i 0 * B 0 k + A i 1 * B 1 k + A i 2 * B 2 k + A i 3 * B 3 k

lemma mul4_id4_right (A : Mat4) : mul4 A id4 = A := by
  funext i k
  fin_cases k <;>
    simp [mul4, id4, Matrix.cons_val_zero, Matrix.cons_val_one, Matrix.head_cons,
      Matrix.cons_val_two, Matrix.cons_val_three, Matrix.tail_cons, Matrix.vecHead, Matrix.vecTail]

lemma mul4_id4_left (A : Mat4) : mul4 id4 A = A := by
  funext i k
  fin_cases i <;>
    simp [mul4, id4, Matrix.cons_val_zero, Matrix.cons_val_one, Matrix.head_cons,
      Matrix.cons_val_two, Matrix.cons_val_three, Matrix.tail_cons, Matrix.vecHead, Matrix.vecTail]

lemma mul4_assoc (A B C : Mat4) : mul4 (mul4 A B) C = mul4 A (mul4 B C) := by
  funext i k
  simp only [mul4]
  ring

/-- DH transform of one link for given parameters (fk_helper.dh_matrix). -/
def dh_matrix (a alpha d theta : ℝ) : Mat4 :=
  let ca := Real.cos alpha
  let sa := Real.sin alpha
  let ct := Real.cos theta
  let st := Real.sin theta
  ![![ct, -st*ca,  st*sa, a*ct],
    ![st,  ct*ca, -ct*sa, a*st],
    ![0,      sa,     ca,    d],
    ![0,       0,      0,    1]]

/-- The standard Denavit-Hartenberg matrix exactly as displayed in the
specification (spec section 4.1), to be compared with `dh_matrix`. -/
def dh_matrix_spec (a alpha d theta : ℝ) : Mat4 :=
  ![![Real.cos theta, -(Real.sin theta) * Real.cos alpha,
      Real.sin theta * Real.sin alpha, a * Real.cos theta],
    ![Real.sin theta, Real.cos theta * Real.cos alpha,
      -(Real.cos theta) * Real.sin alpha, a * Real.sin theta],
    ![0, Real.sin alpha, Real.cos alpha, d],
    ![0, 0, 0, 1]]

/-- A numpy 2-D array of arbitrary shape: row count, column count and an
entry function.  Used to model the shape check of fk_helper.mat4_mul. -/
structure PyMat where
  rows : ℕ
  cols : ℕ
  entry : ℕ → ℕ → ℝ

/-- fk_helper.mat4_mul: raises ValueError unless both operands are 4x4,
otherwise returns `A @ B`.  The raised exception is modelled by
`Except.error` with the source's message. -/
def mat4_mul (A B : PyMat) : Except String PyMat :=
  if (A.rows, A.cols) = (4, 4) ∧ (B.rows, B.cols) = (4, 4) then
    Except.ok ⟨4, 4, fun i k =>
      A.entry i 0 * B.entry 0 k + A.entry i 1 * B.entry 1 k +
      A.entry i 2 * B.entry 2 k + A.entry i 3 * B.entry 3 k⟩
  else
    Except.error "mat4_mul: oczekiwano macierzy 4x4"

/-- The 4x4 matrix product as the spec describes it, on the PyMat carrier,
to be compared with what `mat4_mul` returns in the well-shaped case. -/
def pymat_product (A B : PyMat) : PyMat :=
  ⟨4, 4, fun i k =>
    A.entry i 0 * B.entry 0 k + A.entry i 1 * B.entry 1 k +
    A.entry i 2 * B.entry 2 k + A.entry i 3 * B.entry 3 k⟩

/-- fk_helper.pose_from_transform: translation from the last column and
Z-Y-X Euler angles from the rotation submatrix, converted to degrees when
the flag is set.  The source computes `den`, one unconditional set of
`arctan2` calls, and the degree conversion. -/
def pose_from_transform (T : Mat4) (degrees : Bool) : ℝ × ℝ × ℝ × ℝ × ℝ × ℝ :=
  let x := T 0 3
  let y := T 1 3
  let z := T 2 3
  let r11 := T 0 0
  let r21 := T 1 0
  let r31 := T 2 0
  let r32 := T 2 1
  let r33 := T 2 2
  let den := Real.sqrt (r32^2 + r33^2)
  let b_ang := atan2 (-r31) den
  let a_ang := atan2 r21 r11
  let c_ang := atan2 r32 r33
  if degrees then
    (x, y, z, a_ang * 180 / Real.pi, b_ang * 180 / Real.pi, c_ang * 180 / Real.pi)
  else
    (x, y, z, a_ang, b_ang, c_ang)

/-- Link constant d1 (mm), fk_helper.py. -/
def D1 : ℝ := 104

/-- Link constant a2 (mm), fk_helper.py. -/
def A2 : ℝ := 270

/-- Link constant d4 (mm), fk_helper.py. -/
def D4 : ℝ := 300

/-- Link constant d6 (mm), fk_helper.py. -/
def D6 : ℝ := 63.4

/-- The six (a, alpha, d) DH tuples, fk_helper.ROBOT_DH_PARAMS, as a total
function on ℕ (only indices 0..5 are ever read). -/
def ROBOT_DH_PARAMS : ℕ → ℝ × ℝ × ℝ := fun i =>
  [ ((0 : ℝ), Real.pi / 2, D1),
    (A2, 0, 0),
    (0, Real.pi / 2, 0),
    (0, -(Real.pi / 2), D4),
    (0, Real.pi / 2, 0),
    (0, 0, D6) ].getD i (0, 0, 0)

/-- Per-joint DH matrices built in step_viewer.apply_forward_kinematics
(line 306): `dh[i] = dh_matrix(a_i, alpha_i, d_i, math.radians(axis_values[i]))`. -/
def fk_dh (axis_values : ℕ → ℝ) (i : ℕ) : Mat4 :=
  dh_matrix (ROBOT_DH_PARAMS i).1 (ROBOT_DH_PARAMS i).2.1 (ROBOT_DH_PARAMS i).2.2
    (deg2rad (axis_values i))

/-- Cumulative chain transforms of step_viewer.apply_forward_kinematics
(lines 308-310): `tr[0] = dh[0]; tr[i] = mat4_mul(tr[i-1], dh[i])`.
The mat4_mul shape check always passes there, so the product is `mul4`. -/
def cumulative (perJoint : ℕ → Mat4) : ℕ → Mat4
  | 0 => perJoint 0
  | n + 1 => mul4 (cumulative perJoint n) (perJoint (n + 1))

/-- The independently computed ascending product
perJoint[0] · perJoint[1] · … · perJoint[i] named by the spec
(section 8, chain composition property). -/
def chain_product_spec (perJoint : ℕ → Mat4) (i : ℕ) : Mat4 :=
  ((List.range (i + 1)).map perJoint).foldr mul4 id4

/-- The fixed column permutation applied to the last cumulative transform
before pose extraction (step_viewer lines 329-336). -/
def Pmat : Mat4 := ![![0,1,0,0], ![0,0,1,0], ![1,0,0,0], ![0,0,0,1]]

/-- End-effector pose of the forward-kinematics chain
(step_viewer.apply_forward_kinematics lines 302-341): compose the six DH
transforms, apply `P`, extract the pose in degrees. -/
def fk_pose (axis_values : ℕ → ℝ) : ℝ × ℝ × ℝ × ℝ × ℝ × ℝ :=
  pose_from_transform (mul4 (cumulative (fk_dh axis_values) 5) Pmat) true

/-- step_viewer.apply_forward_kinematics including the +0.01 degree nudge
it applies to every slider value before the chain (lines 295-296). -/
def apply_forward_kinematics (axis_values : ℕ → ℝ) : ℝ × ℝ × ℝ × ℝ × ℝ × ℝ :=
  fk_pose (fun i => axis_values i + 0.01)

/-- The six floats packed by step_viewer.send (line 30):
radians with −π/2 on the first four axes. -/
def send_values (a1 a2 a3 a4 a5 a6 : ℝ) : Fin 6 → ℝ :=
  ![deg2rad a1 - Real.pi / 2, deg2rad a2 - Real.pi / 2, deg2rad a3 - Real.pi / 2,
    deg2rad a4 - Real.pi / 2, deg2rad a5, deg2rad a6]

/-- The transmitted values as the spec words them (section 6): each angle
converted to radians with a fixed −90° offset subtracted on the first four
axes and no offset on the last two. -/
def send_values_spec (a1 a2 a3 a4 a5 a6 : ℝ) : Fin 6 → ℝ :=
  ![deg2rad (a1 - 90), deg2rad (a2 - 90), deg2rad (a3 - 90),
    deg2rad (a4 - 90), deg2rad a5, deg2rad a6]

/-- fk_helper.calculate_ik (lines 85-167).  The source's dead
`if True ... else` keeps only its first branch; the final 6-tuple is in
degrees.  The epsilon nudge on near-zero `ax`, `ay` is the source's
`ax += epsilon if ax >= 0 else -epsilon` under `abs(ax) < epsilon`. -/
def calculate_ik (x y z phi_in beta_in psi_in : ℝ) : ℝ × ℝ × ℝ × ℝ × ℝ × ℝ :=
  let phi := deg2rad phi_in
  let beta := deg2rad beta_in
  let psi := deg2rad psi_in
  let r11 := Real.cos phi * Real.sin beta * Real.cos psi + Real.sin phi * Real.sin psi
  let r21 := Real.sin phi * Real.sin beta * Real.cos psi - Real.cos phi * Real.sin psi
  let r31 := Real.cos beta * Real.cos psi
  let r12 := Real.cos phi * Real.cos beta
  let r22 := Real.sin phi * Real.cos beta
  let r32 := -Real.sin beta
  let r13 := Real.cos phi * Real.sin beta * Real.sin psi - Real.sin phi * Real.cos psi
  let r23 := Real.sin phi * Real.sin beta * Real.sin psi + Real.cos phi * Real.cos psi
  let r33 := Real.cos beta * Real.sin psi
  let Wx := x - D6 * r13
  let Wy := y - D6 * r23
  let Wz := z - D6 * r33
  let r := Real.sqrt (Wx * Wx + Wy * Wy)
  let s := Wz - D1
  let t0 := atan2 Wy Wx
  let cos_theta2 := (r * r + s * s - A2 * A2 - D4 * D4) / (2 * A2 * D4)
  let t2 := atan2 (-Real.sqrt (1 - cos_theta2 * cos_theta2)) cos_theta2
  let k1 := A2 + D4 * Real.cos t2
  let k2 := D4 * Real.sin t2
  let t1 := atan2 s r - atan2 k2 k1
  let t2p := t2 + Real.pi / 2
  let ax := r13 * Real.cos t0 * Real.cos (t1 + t2p) +
            r23 * Real.cos (t1 + t2p) * Real.sin t0 +
            r33 * Real.sin (t1 + t2p)
  let ay := -r23 * Real.cos t0 + r13 * Real.sin t0
  let az := -r33 * Real.cos (t1 + t2p) +
            r13 * Real.cos t0 * Real.sin (t1 + t2p) +
            r23 * Real.sin t0 * Real.sin (t1 + t2p)
  let sz := -r32 * Real.cos (t1 + t2p) +
            r12 * Real.cos t0 * Real.sin (t1 + t2p) +
            r22 * Real.sin t0 * Real.sin (t1 + t2p)
  let nz := -r31 * Real.cos (t1 + t2p) +
            r11 * Real.cos t0 * Real.sin (t1 + t2p) +
            r21 * Real.sin t0 * Real.sin (t1 + t2p)
  let epsilon : ℝ := 0.1
  let axn := if |ax| < epsilon then (if 0 ≤ ax then ax + epsilon else ax - epsilon) else ax
  let ayn := if |ay| < epsilon then (if 0 ≤ ay then ay + epsilon else ay - epsilon) else ay
  let t3 := atan2 (-ayn) (-axn) + Real.pi / 2
  let t4 := atan2 (-Real.sqrt (axn * axn + ayn * ayn)) az + Real.pi / 2
  let t5 := atan2 (-sz) nz + Real.pi / 2
  (rad2deg t0, rad2deg t1, rad2deg t2p, rad2deg t3, rad2deg t4, rad2deg t5)

/-- fk_helper.calculate_ik2 (lines 171-246): nudges all three input Euler
angles by +0.001 degrees, uses its own rotation-entry layout, and applies
no π/2 offsets to the wrist angles. -/
def calculate_ik2 (x y z phi_in beta_in psi_in : ℝ) : ℝ × ℝ × ℝ × ℝ × ℝ × ℝ :=
  let phi := (phi_in + 0.001) * Real.pi / 180
  let beta := (beta_in + 0.001) * Real.pi / 180
  let psi := (psi_in + 0.001) * Real.pi / 180
  let c_alfa := Real.cos phi
  let s_alfa := Real.sin phi
  let c_beta := Real.cos beta
  let s_beta := Real.sin beta
  let c_delta := Real.cos psi
  let s_delta := Real.sin psi
  let r21 := c_alfa * c_beta
  let r22 := c_alfa * s_beta * s_delta - c_delta * s_alfa
  let r23 := s_alfa * s_delta + c_alfa * c_delta * s_beta
  let r31 := c_beta * s_alfa
  let r32 := c_alfa * c_delta + s_alfa * s_beta * s_delta
  let r33 := c_delta * s_alfa * s_beta - c_alfa * s_delta
  let r11 := -s_beta
  let r12 := c_beta * s_delta
  let r13 := c_beta * c_delta
  let Wx := x - D6 * r13
  let Wy := y - D6 * r23
  let Wz := z - D6 * r33
  let r := Real.sqrt (Wx * Wx + Wy * Wy)
  let s := Wz - D1
  let t0 := atan2 Wy Wx
  let cos_theta2 := (r * r + s * s - A2 * A2 - D4 * D4) / (2 * A2 * D4)
  let t2 := atan2 (-Real.sqrt (1 - cos_theta2 * cos_theta2)) cos_theta2
  let k1 := A2 + D4 * Real.cos t2
  let k2 := D4 * Real.sin t2
  let t1 := atan2 s r - atan2 k2 k1
  let t2p := t2 + Real.pi / 2
  let ax := r33 * Real.sin (t1 + t2p) + r13 * Real.cos (t1 + t2p) * Real.cos t0 +
            r23 * Real.cos (t1 + t2p) * Real.sin t0
  let ay := r13 * Real.sin t0 - r23 * Real.cos t0
  let az := r13 * Real.sin (t1 + t2p) * Real.cos t0 - r33 * Real.cos (t1 + t2p) +
            r23 * Real.sin (t1 + t2p) * Real.sin t0
  let sz := r12 * Real.sin (t1 + t2p) * Real.cos t0 - r32 * Real.cos (t1 + t2p) +
            r22 * Real.sin (t1 + t2p) * Real.sin t0
  let nz := r11 * Real.sin (t1 + t2p) * Real.cos t0 - r31 * Real.cos (t1 + t2p) +
            r21 * Real.sin (t1 + t2p) * Real.sin t0
  let t3 := atan2 ay ax
  let t4 := atan2 (Real.sqrt (ax * ax + ay * ay)) az
  let t5 := atan2 sz (-nz)
  (t0 * 180 / Real.pi, t1 * 180 / Real.pi, t2p * 180 / Real.pi,
   t3 * 180 / Real.pi, t4 * 180 / Real.pi, t5 * 180 / Real.pi)

/-- The law-of-cosines term `cos_theta2` computed inside calculate_ik
(fk_helper lines 91-119), extracted as its own function so theorems can
talk about the quantity the solver never range-checks. -/
def ik_cos_theta3 (x y z phi_in beta_in psi_in : ℝ) : ℝ :=
  let phi := deg2rad phi_in
  let beta := deg2rad beta_in
  let psi := deg2rad psi_in
  let r13 := Real.cos phi * Real.sin beta * Real.sin psi - Real.sin phi * Real.cos psi
  let r23 := Real.sin phi * Real.sin beta * Real.sin psi + Real.cos phi * Real.cos psi
  let r33 := Real.cos beta * Real.sin psi
  let Wx := x - D6 * r13
  let Wy := y - D6 * r23
  let Wz := z - D6 * r33
  let r := Real.sqrt (Wx * Wx + Wy * Wy)
  let s := Wz - D1
  (r * r + s * s - A2 * A2 - D4 * D4) / (2 * A2 * D4)

/-- The law-of-cosines term `cos_theta2` computed inside calculate_ik2
(fk_helper lines 175-217), with that solver's rotation entries and its
+0.001 degree input nudge. -/
def ik2_cos_theta3 (x y z phi_in beta_in psi_in : ℝ) : ℝ :=
  let phi := (phi_in + 0.001) * Real.pi / 180
  let beta := (beta_in + 0.001) * Real.pi / 180
  let psi := (psi_in + 0.001) * Real.pi / 180
  let r23 := Real.sin phi * Real.sin psi + Real.cos phi * Real.cos psi * Real.sin beta
  let r33 := Real.cos psi * Real.sin phi * Real.sin beta - Real.cos phi * Real.sin psi
  let r13 := Real.cos beta * Real.cos psi
  let Wx := x - D6 * r13
  let Wy := y - D6 * r23
  let Wz := z - D6 * r33
  let r := Real.sqrt (Wx * Wx + Wy * Wy)
  let s := Wz - D1
  (r * r + s * s - A2 * A2 - D4 * D4) / (2 * A2 * D4)

/-- Wrist centre as the spec words it (section 4.4 step 2): desired
position minus D6 times the third column of the rotation matrix. -/
def wrist_center_spec (x y z r13 r23 r33 : ℝ) : ℝ × ℝ × ℝ :=
  (x - D6 * r13, y - D6 * r23, z - D6 * r33)

/-- First joint angle as the spec words it (section 4.4 step 3). -/
def theta1_spec (Wx Wy : ℝ) : ℝ := atan2 Wy Wx

/-- Law-of-cosines term as the spec words it (section 4.4 step 4). -/
def cos_theta3_spec (r s : ℝ) : ℝ := (r ^ 2 + s ^ 2 - A2 ^ 2 - D4 ^ 2) / (2 * A2 * D4)

/-- Elbow-down branch as the spec words it (section 4.4 step 4). -/
def theta3_elbow_down_spec (c : ℝ) : ℝ := atan2 (-Real.sqrt (1 - c ^ 2)) c

/-- Third rotation-column entries reconstructed inside calculate_ik
(fk_helper lines 104-106). -/
def ik_r13 (phi_in beta_in psi_in : ℝ) : ℝ :=
  Real.cos (deg2rad phi_in) * Real.sin (deg2rad beta_in) * Real.sin (deg2rad psi_in) -
    Real.sin (deg2rad phi_in) * Real.cos (deg2rad psi_in)

/-- See `ik_r13`. -/
def ik_r23 (phi_in beta_in psi_in : ℝ) : ℝ :=
  Real.sin (deg2rad phi_in) * Real.sin (deg2rad beta_in) * Real.sin (deg2rad psi_in) +
    Real.cos (deg2rad phi_in) * Real.cos (deg2rad psi_in)

/-- See `ik_r13`. -/
def ik_r33 (phi_in beta_in psi_in : ℝ) : ℝ :=
  Real.cos (deg2rad beta_in) * Real.sin (deg2rad psi_in)

/-- Third rotation-column entries reconstructed inside calculate_ik2
(fk_helper lines 193-201), including that solver's +0.001 degree nudge. -/
def ik2_r13 (phi_in beta_in psi_in : ℝ) : ℝ :=
  Real.cos ((beta_in + 0.001) * Real.pi / 180) * Real.cos ((psi_in + 0.001) * Real.pi / 180)

/-- See `ik2_r13`. -/
def ik2_r23 (phi_in beta_in psi_in : ℝ) : ℝ :=
  Real.sin ((phi_in + 0.001) * Real.pi / 180) * Real.sin ((psi_in + 0.001) * Real.pi / 180) +
    Real.cos ((phi_in + 0.001) * Real.pi / 180) * Real.cos ((psi_in + 0.001) * Real.pi / 180) *
      Real.sin ((beta_in + 0.001) * Real.pi / 180)

/-- See `ik2_r13`. -/
def ik2_r33 (phi_in beta_in psi_in : ℝ) : ℝ :=
  Real.cos ((psi_in + 0.001) * Real.pi / 180) * Real.sin ((phi_in + 0.001) * Real.pi / 180) *
      Real.sin ((beta_in + 0.001) * Real.pi / 180) -
    Real.cos ((phi_in + 0.001) * Real.pi / 180) * Real.sin ((psi_in + 0.001) * Real.pi / 180)

section Theorems

/-- C5: `dh_matrix` agrees with the spec's standard Denavit-Hartenberg
matrix for all real parameters, and `dh_matrix 0 0 0 0` is the 4x4
identity matrix. -/
theorem dh_matrix_matches_spec_and_identity :
    (∀ a alpha d theta : ℝ, dh_matrix a alpha d theta = dh_matrix_spec a alpha d theta) ∧
    dh_matrix 0 0 0 0 = id4 := by
  constructor
  · intro a alpha d theta
    rfl
  · funext i k
    fin_cases i <;> fin_cases k <;>
      simp [dh_matrix, id4, Matrix.cons_val_zero, Matrix.cons_val_one, Matrix.head_cons,
        Matrix.cons_val_two, Matrix.cons_val_three, Matrix.tail_cons, Matrix.vecHead,
        Matrix.vecTail]

/-- C9: the six values handed to the UDP transport by `send` are the
angles in radians with a fixed −90° offset on the first four axes and no
offset on the last two. -/
theorem send_values_match_offset_spec (a1 a2 a3 a4 a5 a6 : ℝ) :
    send_values a1 a2 a3 a4 a5 a6 = send_values_spec a1 a2 a3 a4 a5 a6 := by
  funext i
  fin_cases i <;>
    simp [send_values, send_values_spec, deg2rad, Matrix.cons_val_zero, Matrix.cons_val_one,
      Matrix.head_cons, Matrix.cons_val_two, Matrix.cons_val_three, Matrix.tail_cons,
      Matrix.vecHead, Matrix.vecTail] <;> ring

lemma foldr_mul4_init (l : List Mat4) (m : Mat4) :
    l.foldr mul4 (mul4 m id4) = mul4 (l.foldr mul4 id4) m := by
  induction l with
  | nil => simp [List.foldr, mul4_id4_right, mul4_id4_left]
  | cons a l ih => simp [List.foldr, ih, mul4_assoc]

/-- C4: the chain composer's cumulative transforms satisfy the stated
recurrence and equal the ascending matrix product of the per-joint
transforms, for every per-joint family and every index. -/
theorem cumulative_is_ascending_product (perJoint : ℕ → Mat4) :
    cumulative perJoint 0 = perJoint 0 ∧
    (∀ i : ℕ, cumulative perJoint (i + 1) = mul4 (cumulative perJoint i) (perJoint (i + 1))) ∧
    (∀ i : ℕ, cumulative perJoint i = chain_product_spec perJoint i) := by
  refine ⟨rfl, fun i => rfl, fun i => ?_⟩
  induction i with
  | zero => simp [cumulative, chain_product_spec, List.range_succ, List.range_zero, mul4_id4_right]
  | succ n ih =>
    rw [chain_product_spec, List.range_succ, List.map_append, List.foldr_append]
    simp only [List.map_cons, List.map_nil, List.foldr_cons, List.foldr_nil]
    rw [foldr_mul4_init]
    rw [show cumulative perJoint (n + 1) = mul4 (cumulative perJoint n) (perJoint (n + 1)) from rfl,
      ih]
    rfl

/-- C10: the pitch angle b returned by `pose_from_transform` always lies
in [−90°, 90°], because it is `atan2(−R[2][0], den)` with `den ≥ 0` and is
never recomputed. -/
theorem pose_pitch_within_90 (T : Mat4) :
    -90 ≤ (pose_from_transform T true).2.2.2.2.1 ∧
    (pose_from_transform T true).2.2.2.2.1 ≤ 90 := by
  have hpi := Real.pi_pos
  have hmem := atan2_mem_of_nonneg (Real.sqrt_nonneg ((T 2 1) ^ 2 + (T 2 2) ^ 2)) (-(T 2 0))
  have hproj : (pose_from_transform T true).2.2.2.2.1 =
      atan2 (-(T 2 0)) (Real.sqrt ((T 2 1) ^ 2 + (T 2 2) ^ 2)) * 180 / Real.pi := rfl
  rw [hproj]
  constructor
  · have h2 : (-(Real.pi / 2)) * 180 ≤ atan2 (-(T 2 0)) (Real.sqrt ((T 2 1) ^ 2 + (T 2 2) ^ 2)) * 180 :=
      mul_le_mul_of_nonneg_right hmem.1 (by norm_num)
    have h3 : (-(Real.pi / 2)) * 180 / Real.pi = -90 := by
      field_simp
      ring
    have h4 := (div_le_div_iff_of_pos_right hpi).mpr h2
    rw [h3] at h4
    exact h4
  · have h2 : atan2 (-(T 2 0)) (Real.sqrt ((T 2 1) ^ 2 + (T 2 2) ^ 2)) * 180 ≤ (Real.pi / 2) * 180 :=
      mul_le_mul_of_nonneg_right hmem.2 (by norm_num)
    have h3 : (Real.pi / 2) * 180 / Real.pi = 90 := by
      field_simp
      ring
    have h4 := (div_le_div_iff_of_pos_right hpi).mpr h2
    rw [h3] at h4
    exact h4

/-- C2: the pose extractor's output matches the claimed branch selection:
the guard value cos(b) is always nonnegative, in which case a and c are
the stated `atan2` pairs converted to degrees, and under the (never
satisfiable) cos(b) < 0 guard the sign-flipped formulas would hold. -/
theorem pose_extractor_branch_selection (T : Mat4) :
    0 ≤ Real.cos (atan2 (-(T 2 0)) (Real.sqrt ((T 2 1) ^ 2 + (T 2 2) ^ 2))) ∧
    (0 ≤ Real.cos (atan2 (-(T 2 0)) (Real.sqrt ((T 2 1) ^ 2 + (T 2 2) ^ 2))) →
      (pose_from_transform T true).2.2.2.1 = rad2deg (atan2 (T 1 0) (T 0 0)) ∧
      (pose_from_transform T true).2.2.2.2.2 = rad2deg (atan2 (T 2 1) (T 2 2))) ∧
    (Real.cos (atan2 (-(T 2 0)) (Real.sqrt ((T 2 1) ^ 2 + (T 2 2) ^ 2))) < 0 →
      (pose_from_transform T true).2.2.2.1 = rad2deg (atan2 (-(T 1 0)) (-(T 0 0))) ∧
      (pose_from_transform T true).2.2.2.2.1 =
        rad2deg (atan2 (-(T 2 0)) (-(Real.sqrt ((T 2 1) ^ 2 + (T 2 2) ^ 2)))) ∧
      (pose_from_transform T true).2.2.2.2.2 = rad2deg (atan2 (-(T 2 1)) (-(T 2 2)))) := by
  have hmem := atan2_mem_of_nonneg (Real.sqrt_nonneg ((T 2 1) ^ 2 + (T 2 2) ^ 2)) (-(T 2 0))
  have hcos : 0 ≤ Real.cos (atan2 (-(T 2 0)) (Real.sqrt ((T 2 1) ^ 2 + (T 2 2) ^ 2))) :=
    Real.cos_nonneg_of_mem_Icc ⟨hmem.1, hmem.2⟩
  exact ⟨hcos, fun _ => ⟨rfl, rfl⟩, fun hneg => absurd hcos (not_le.mpr hneg)⟩

/-- Witness for C2: at the identity transform the nonnegative-cos branch
applies and yields the stated yaw and roll formulas. -/
theorem pose_extractor_branch_selection_check :
    (pose_from_transform id4 true).2.2.2.1 = rad2deg (atan2 (id4 1 0) (id4 0 0)) ∧
    (pose_from_transform id4 true).2.2.2.2.2 = rad2deg (atan2 (id4 2 1) (id4 2 2)) :=
  (pose_extractor_branch_selection id4).2.1 (pose_extractor_branch_selection id4).1

/-- C8: matrix multiplication rejects any operand pair in which one
operand is not 4x4, with the source's ValueError, and returns the matrix
product for every pair of 4x4 operands. -/
theorem mat4_mul_shape_guard :
    (∀ A B : PyMat, ¬((A.rows, A.cols) = (4, 4) ∧ (B.rows, B.cols) = (4, 4)) →
      mat4_mul A B = Except.error "mat4_mul: oczekiwano macierzy 4x4") ∧
    (∀ A B : PyMat, (A.rows, A.cols) = (4, 4) → (B.rows, B.cols) = (4, 4) →
      mat4_mul A B = Except.ok (pymat_product A B)) := by
  constructor
  · intro A B h
    rw [mat4_mul, if_neg h]
  · intro A B hA hB
    rw [mat4_mul, if_pos ⟨hA, hB⟩]
    rfl

/-- Witness for C8: a 3x3 operand is rejected with ShapeError while a 4x4
pair multiplies cleanly. -/
theorem mat4_mul_shape_guard_check :
    mat4_mul (PyMat.mk 3 3 fun _ _ => 0) (PyMat.mk 4 4 fun _ _ => 0) =
      Except.error "mat4_mul: oczekiwano macierzy 4x4" ∧
    mat4_mul (PyMat.mk 4 4 fun _ _ => 0) (PyMat.mk 4 4 fun _ _ => 0) =
      Except.ok (pymat_product (PyMat.mk 4 4 fun _ _ => 0) (PyMat.mk 4 4 fun _ _ => 0)) := by
  constructor
  · exact mat4_mul_shape_guard.1 _ _ (by simp)
  · exact mat4_mul_shape_guard.2 _ _ rfl rfl

lemma unreachable_cos_lower (r13 r23 r33 : ℝ) (h13 : |r13| ≤ 1) :
    1 < (Real.sqrt ((10000 - D6 * r13) * (10000 - D6 * r13) + (0 - D6 * r23) * (0 - D6 * r23)) *
           Real.sqrt ((10000 - D6 * r13) * (10000 - D6 * r13) + (0 - D6 * r23) * (0 - D6 * r23)) +
         (0 - D6 * r33 - D1) * (0 - D6 * r33 - D1) - A2 * A2 - D4 * D4) / (2 * A2 * D4) := by
  have hN : (0:ℝ) ≤ (10000 - D6 * r13) * (10000 - D6 * r13) + (0 - D6 * r23) * (0 - D6 * r23) :=
    add_nonneg (mul_self_nonneg _) (mul_self_nonneg _)
  rw [Real.mul_self_sqrt hN]
  simp only [D1, A2, D4, D6]
  have h13' := abs_le.mp h13
  have hWx : (9936.6 : ℝ) ≤ 10000 - 63.4 * r13 := by nlinarith [h13'.1, h13'.2]
  rw [one_lt_div (by norm_num : (0:ℝ) < 2 * 270 * 300)]
  nlinarith [mul_le_mul hWx hWx (by norm_num) (by linarith),
    mul_self_nonneg (0 - 63.4 * r23), mul_self_nonneg (0 - 63.4 * r33 - 104)]

/-- C1: at the target x=10000, y=z=0 with zero orientation — far outside
the arm's reach — the law-of-cosines term of `calculate_ik` exceeds 1,
its square makes `1 − cosθ3²` negative (so numpy's `sqrt` produces NaN
that propagates into the returned angles; neither solver has an error
path), and the same term in `calculate_ik2` also exceeds 1. -/
theorem ik_unreachable_cos_exceeds_one :
    1 < ik_cos_theta3 10000 0 0 0 0 0 ∧
    1 - ik_cos_theta3 10000 0 0 0 0 0 * ik_cos_theta3 10000 0 0 0 0 0 < 0 ∧
    1 < ik2_cos_theta3 10000 0 0 0 0 0 := by
  have h1 : 1 < ik_cos_theta3 10000 0 0 0 0 0 := by
    unfold ik_cos_theta3
    simp only [deg2rad]
    norm_num [Real.cos_zero, Real.sin_zero, D1, A2, D4, D6]
    have h : Real.sqrt 2500100489 / Real.sqrt 25 * (Real.sqrt 2500100489 / Real.sqrt 25) =
        2500100489 / 25 := by
      rw [div_mul_div_comm, Real.mul_self_sqrt (by norm_num), Real.mul_self_sqrt (by norm_num)]
    rw [h]
    norm_num
  have h13 : |Real.cos (((0:ℝ) + 0.001) * Real.pi / 180) *
      Real.cos (((0:ℝ) + 0.001) * Real.pi / 180)| ≤ 1 := by
    rw [abs_mul]
    exact mul_le_one₀ (Real.abs_cos_le_one _) (abs_nonneg _) (Real.abs_cos_le_one _)
  exact ⟨h1, by nlinarith [h1], unreachable_cos_lower _ _ _ h13⟩

/-- C6: both inverse-kinematics solvers compute the wrist centre as the
desired position minus D6 times the third column of their reconstructed
rotation matrix, set the first joint angle to atan2(Wy, Wx), and select
the elbow-down branch θ3 = atan2(−√(1−cosθ3²), cosθ3) from the
law-of-cosines term built from r = √(Wx²+Wy²) and s = Wz − D1; the code
then adds its fixed +90° offset to θ3 and converts both angles to
degrees. -/
theorem ik_wrist_center_theta1_elbow_branch (x y z phi_in beta_in psi_in : ℝ) :
    ((calculate_ik x y z phi_in beta_in psi_in).1 = rad2deg (theta1_spec
       (wrist_center_spec x y z (ik_r13 phi_in beta_in psi_in) (ik_r23 phi_in beta_in psi_in)
         (ik_r33 phi_in beta_in psi_in)).1
       (wrist_center_spec x y z (ik_r13 phi_in beta_in psi_in) (ik_r23 phi_in beta_in psi_in)
         (ik_r33 phi_in beta_in psi_in)).2.1) ∧
     (calculate_ik x y z phi_in beta_in psi_in).2.2.1 =
       rad2deg (theta3_elbow_down_spec (cos_theta3_spec
         (Real.sqrt
           ((wrist_center_spec x y z (ik_r13 phi_in beta_in psi_in)
               (ik_r23 phi_in beta_in psi_in) (ik_r33 phi_in beta_in psi_in)).1 ^ 2 +
            (wrist_center_spec x y z (ik_r13 phi_in beta_in psi_in)
               (ik_r23 phi_in beta_in psi_in) (ik_r33 phi_in beta_in psi_in)).2.1 ^ 2))
         ((wrist_center_spec x y z (ik_r13 phi_in beta_in psi_in)
             (ik_r23 phi_in beta_in psi_in) (ik_r33 phi_in beta_in psi_in)).2.2 - D1)) +
         Real.pi / 2)) ∧
    ((calculate_ik2 x y z phi_in beta_in psi_in).1 = rad2deg (theta1_spec
       (wrist_center_spec x y z (ik2_r13 phi_in beta_in psi_in) (ik2_r23 phi_in beta_in psi_in)
         (ik2_r33 phi_in beta_in psi_in)).1
       (wrist_center_spec x y z (ik2_r13 phi_in beta_in psi_in) (ik2_r23 phi_in beta_in psi_in)
         (ik2_r33 phi_in beta_in psi_in)).2.1) ∧
     (calculate_ik2 x y z phi_in beta_in psi_in).2.2.1 =
       rad2deg (theta3_elbow_down_spec (cos_theta3_spec
         (Real.sqrt
           ((wrist_center_spec x y z (ik2_r13 phi_in beta_in psi_in)
               (ik2_r23 phi_in beta_in psi_in) (ik2_r33 phi_in beta_in psi_in)).1 ^ 2 +
            (wrist_center_spec x y z (ik2_r13 phi_in beta_in psi_in)
               (ik2_r23 phi_in beta_in psi_in) (ik2_r33 phi_in beta_in psi_in)).2.1 ^ 2))
         ((wrist_center_spec x y z (ik2_r13 phi_in beta_in psi_in)
             (ik2_r23 phi_in beta_in psi_in) (ik2_r33 phi_in beta_in psi_in)).2.2 - D1)) +
         Real.pi / 2)) := by
  simp only [calculate_ik, calculate_ik2, wrist_center_spec, theta1_spec, cos_theta3_spec,
    theta3_elbow_down_spec, ik_r13, ik_r23, ik_r33, ik2_r13, ik2_r23, ik2_r33, rad2deg,
    deg2rad, pow_two]
  exact ⟨⟨trivial, trivial⟩, trivial, trivial⟩

lemma fk_dh_zero_0 : fk_dh (fun _ => 0) 0 = ![![1,0,0,0],![0,0,-1,0],![0,1,0,104],![0,0,0,1]] := by
  funext i k
  fin_cases i <;> fin_cases k <;>
    simp [fk_dh, ROBOT_DH_PARAMS, dh_matrix, deg2rad, D1, A2, D4, D6,
      Matrix.cons_val_zero, Matrix.cons_val_one, Matrix.head_cons, Matrix.cons_val_two,
      Matrix.cons_val_three, Matrix.tail_cons, Matrix.vecHead, Matrix.vecTail]

lemma fk_dh_zero_1 : fk_dh (fun _ => 0) 1 = ![![1,0,0,270],![0,1,0,0],![0,0,1,0],![0,0,0,1]] := by
  funext i k
  fin_cases i <;> fin_cases k <;>
    simp [fk_dh, ROBOT_DH_PARAMS, dh_matrix, deg2rad, D1, A2, D4, D6,
      Matrix.cons_val_zero, Matrix.cons_val_one, Matrix.head_cons, Matrix.cons_val_two,
      Matrix.cons_val_three, Matrix.tail_cons, Matrix.vecHead, Matrix.vecTail]

lemma fk_dh_zero_2 : fk_dh (fun _ => 0) 2 = ![![1,0,0,0],![0,0,-1,0],![0,1,0,0],![0,0,0,1]] := by
  funext i k
  fin_cases i <;> fin_cases k <;>
    simp [fk_dh, ROBOT_DH_PARAMS, dh_matrix, deg2rad, D1, A2, D4, D6,
      Matrix.cons_val_zero, Matrix.cons_val_one, Matrix.head_cons, Matrix.cons_val_two,
      Matrix.cons_val_three, Matrix.tail_cons, Matrix.vecHead, Matrix.vecTail]

lemma fk_dh_zero_3 : fk_dh (fun _ => 0) 3 = ![![1,0,0,0],![0,0,1,0],![0,-1,0,300],![0,0,0,1]] := by
  funext i k
  fin_cases i <;> fin_cases k <;>
    simp [fk_dh, ROBOT_DH_PARAMS, dh_matrix, deg2rad, D1, A2, D4, D6,
      Matrix.cons_val_zero, Matrix.cons_val_one, Matrix.head_cons, Matrix.cons_val_two,
      Matrix.cons_val_three, Matrix.tail_cons, Matrix.vecHead, Matrix.vecTail]

lemma fk_dh_zero_4 : fk_dh (fun _ => 0) 4 = ![![1,0,0,0],![0,0,-1,0],![0,1,0,0],![0,0,0,1]] := by
  funext i k
  fin_cases i <;> fin_cases k <;>
    simp [fk_dh, ROBOT_DH_PARAMS, dh_matrix, deg2rad, D1, A2, D4, D6,
      Matrix.cons_val_zero, Matrix.cons_val_one, Matrix.head_cons, Matrix.cons_val_two,
      Matrix.cons_val_three, Matrix.tail_cons, Matrix.vecHead, Matrix.vecTail]

lemma fk_dh_zero_5 : fk_dh (fun _ => 0) 5 = ![![1,0,0,0],![0,1,0,0],![0,0,1,63.4],![0,0,0,1]] := by
  funext i k
  fin_cases i <;> fin_cases k <;>
    simp [fk_dh, ROBOT_DH_PARAMS, dh_matrix, deg2rad, D1, A2, D4, D6,
      Matrix.cons_val_zero, Matrix.cons_val_one, Matrix.head_cons, Matrix.cons_val_two,
      Matrix.cons_val_three, Matrix.tail_cons, Matrix.vecHead, Matrix.vecTail]

lemma fk_mul_zero_1 : mul4 ![![1,0,0,0],![0,0,-1,0],![0,1,0,104],![0,0,0,1]]
    ![![1,0,0,270],![0,1,0,0],![0,0,1,0],![0,0,0,1]] =
    ![![1,0,0,270],![0,0,-1,0],![0,1,0,104],![0,0,0,1]] := by
  funext i k
  fin_cases i <;> fin_cases k <;>
    simp [mul4, Matrix.cons_val_zero, Matrix.cons_val_one, Matrix.head_cons, Matrix.cons_val_two,
      Matrix.cons_val_three, Matrix.tail_cons, Matrix.vecHead, Matrix.vecTail]

lemma fk_mul_zero_2 : mul4 ![![1,0,0,270],![0,0,-1,0],![0,1,0,104],![0,0,0,1]]
    ![![1,0,0,0],![0,0,-1,0],![0,1,0,0],![0,0,0,1]] =
    ![![1,0,0,270],![0,-1,0,0],![0,0,-1,104],![0,0,0,1]] := by
  funext i k
  fin_cases i <;> fin_cases k <;>
    simp [mul4, Matrix.cons_val_zero, Matrix.cons_val_one, Matrix.head_cons, Matrix.cons_val_two,
      Matrix.cons_val_three, Matrix.tail_cons, Matrix.vecHead, Matrix.vecTail]

lemma fk_mul_zero_3 : mul4 ![![1,0,0,270],![0,-1,0,0],![0,0,-1,104],![0,0,0,1]]
    ![![1,0,0,0],![0,0,1,0],![0,-1,0,300],![0,0,0,1]] =
    ![![1,0,0,270],![0,0,-1,0],![0,1,0,-196],![0,0,0,1]] := by
  funext i k
  fin_cases i <;> fin_cases k <;>
    norm_num [mul4, Matrix.cons_val_zero, Matrix.cons_val_one, Matrix.head_cons, Matrix.cons_val_two,
      Matrix.cons_val_three, Matrix.tail_cons, Matrix.vecHead, Matrix.vecTail]

lemma fk_mul_zero_4 : mul4 ![![1,0,0,270],![0,0,-1,0],![0,1,0,-196],![0,0,0,1]]
    ![![1,0,0,0],![0,0,-1,0],![0,1,0,0],![0,0,0,1]] =
    ![![1,0,0,270],![0,-1,0,0],![0,0,-1,-196],![0,0,0,1]] := by
  funext i k
  fin_cases i <;> fin_cases k <;>
    simp [mul4, Matrix.cons_val_zero, Matrix.cons_val_one, Matrix.head_cons, Matrix.cons_val_two,
      Matrix.cons_val_three, Matrix.tail_cons, Matrix.vecHead, Matrix.vecTail]

lemma fk_mul_zero_5 : mul4 ![![1,0,0,270],![0,-1,0,0],![0,0,-1,-196],![0,0,0,1]]
    ![![1,0,0,0],![0,1,0,0],![0,0,1,63.4],![0,0,0,1]] =
    ![![1,0,0,270],![0,-1,0,0],![0,0,-1,-259.4],![0,0,0,1]] := by
  funext i k
  fin_cases i <;> fin_cases k <;>
    norm_num [mul4, Matrix.cons_val_zero, Matrix.cons_val_one, Matrix.head_cons,
      Matrix.cons_val_two, Matrix.cons_val_three, Matrix.tail_cons, Matrix.vecHead,
      Matrix.vecTail]

lemma fk_mul_zero_P : mul4 ![![1,0,0,270],![0,-1,0,0],![0,0,-1,-259.4],![0,0,0,1]] Pmat =
    ![![0,1,0,270],![0,0,-1,0],![-1,0,0,-259.4],![0,0,0,1]] := by
  funext i k
  fin_cases i <;> fin_cases k <;>
    norm_num [mul4, Pmat, Matrix.cons_val_zero, Matrix.cons_val_one, Matrix.head_cons,
      Matrix.cons_val_two, Matrix.cons_val_three, Matrix.tail_cons, Matrix.vecHead,
      Matrix.vecTail]

lemma fk_pose_zero : fk_pose (fun _ => 0) = (270, 0, -259.4, 0, 90, 0) := by
  have hchain : cumulative (fk_dh fun _ => 0) 5 =
      mul4 (mul4 (mul4 (mul4 (mul4 (fk_dh (fun _ => 0) 0) (fk_dh (fun _ => 0) 1))
        (fk_dh (fun _ => 0) 2)) (fk_dh (fun _ => 0) 3)) (fk_dh (fun _ => 0) 4))
        (fk_dh (fun _ => 0) 5) := rfl
  have hT : mul4 (cumulative (fk_dh fun _ => 0) 5) Pmat =
      ![![0,1,0,270],![0,0,-1,0],![-1,0,0,-259.4],![0,0,0,1]] := by
    rw [hchain, fk_dh_zero_0, fk_dh_zero_1, fk_dh_zero_2, fk_dh_zero_3, fk_dh_zero_4,
      fk_dh_zero_5, fk_mul_zero_1, fk_mul_zero_2, fk_mul_zero_3, fk_mul_zero_4, fk_mul_zero_5,
      fk_mul_zero_P]
  unfold fk_pose pose_from_transform
  rw [hT]
  have h90 : Real.pi / 2 * 180 / Real.pi = 90 := by
    field_simp
    ring
  norm_num [Matrix.cons_val_zero, Matrix.cons_val_one, Matrix.head_cons, Matrix.cons_val_two,
    Matrix.cons_val_three, Matrix.tail_cons, Matrix.vecHead, Matrix.vecTail, Real.sqrt_zero,
    atan2_zero_zero, atan2_pos_zero one_pos, h90, Prod.mk.injEq]

/-- C7 counterexample: with all six joint angles exactly 0° the forward
kinematics chain does NOT return the pose the claim states (x ≈ 0,
z ≈ 467.4): its x-coordinate is 270 and its z-coordinate is −259.4, more
than 1 mm (indeed hundreds of mm) away from the claimed values. -/
theorem fk_home_pose_refutes_claim :
    ¬ (|(fk_pose (fun _ => 0)).1| ≤ 1 ∧ |(fk_pose (fun _ => 0)).2.2.1 - 467.4| ≤ 1) := by
  rw [fk_pose_zero]
  norm_num

/-- C7 amended: with all six joint angles equal to 0° the forward
kinematics chain built from the DH table D1=104, A2=270, D4=300, D6=63.4
returns the pose x=270, y=0, z=−259.4, a=0°, b=90°, c=0° (upper arm
horizontal along +x, forearm and tool pointing down). -/
theorem fk_home_pose_value : fk_pose (fun _ => 0) = (270, 0, -259.4, 0, 90, 0) :=
  fk_pose_zero

lemma fk_dh_elbow_0 : fk_dh (fun i => if i = 1 then (90:ℝ) else 0) 0 = fk_dh (fun _ => 0) 0 := by
  norm_num [fk_dh]

lemma fk_dh_elbow_2 : fk_dh (fun i => if i = 1 then (90:ℝ) else 0) 2 = fk_dh (fun _ => 0) 2 := by
  norm_num [fk_dh]

lemma fk_dh_elbow_3 : fk_dh (fun i => if i = 1 then (90:ℝ) else 0) 3 = fk_dh (fun _ => 0) 3 := by
  norm_num [fk_dh]

lemma fk_dh_elbow_4 : fk_dh (fun i => if i = 1 then (90:ℝ) else 0) 4 = fk_dh (fun _ => 0) 4 := by
  norm_num [fk_dh]

lemma fk_dh_elbow_5 : fk_dh (fun i => if i = 1 then (90:ℝ) else 0) 5 = fk_dh (fun _ => 0) 5 := by
  norm_num [fk_dh]

lemma fk_dh_elbow_1 : fk_dh (fun i => if i = 1 then (90:ℝ) else 0) 1 =
    ![![0,-1,0,0],![1,0,0,270],![0,0,1,0],![0,0,0,1]] := by
  have h90 : deg2rad 90 = Real.pi / 2 := by
    simp only [deg2rad]
    ring
  funext i k
  fin_cases i <;> fin_cases k <;>
    simp [fk_dh, ROBOT_DH_PARAMS, dh_matrix, h90, D1, A2, D4, D6,
      Matrix.cons_val_zero, Matrix.cons_val_one, Matrix.head_cons, Matrix.cons_val_two,
      Matrix.cons_val_three, Matrix.tail_cons, Matrix.vecHead, Matrix.vecTail]

lemma fk_mul_elbow_1 : mul4 ![![1,0,0,0],![0,0,-1,0],![0,1,0,104],![0,0,0,1]]
    ![![0,-1,0,0],![1,0,0,270],![0,0,1,0],![0,0,0,1]] =
    ![![0,-1,0,0],![0,0,-1,0],![1,0,0,374],![0,0,0,1]] := by
  funext i k
  fin_cases i <;> fin_cases k <;>
    norm_num [mul4, Matrix.cons_val_zero, Matrix.cons_val_one, Matrix.head_cons,
      Matrix.cons_val_two, Matrix.cons_val_three, Matrix.tail_cons, Matrix.vecHead,
      Matrix.vecTail]

lemma fk_mul_elbow_2 : mul4 ![![0,-1,0,0],![0,0,-1,0],![1,0,0,374],![0,0,0,1]]
    ![![1,0,0,0],![0,0,-1,0],![0,1,0,0],![0,0,0,1]] =
    ![![0,0,1,0],![0,-1,0,0],![1,0,0,374],![0,0,0,1]] := by
  funext i k
  fin_cases i <;> fin_cases k <;>
    norm_num [mul4, Matrix.cons_val_zero, Matrix.cons_val_one, Matrix.head_cons,
      Matrix.cons_val_two, Matrix.cons_val_three, Matrix.tail_cons, Matrix.vecHead,
      Matrix.vecTail]

lemma fk_mul_elbow_3 : mul4 ![![0,0,1,0],![0,-1,0,0],![1,0,0,374],![0,0,0,1]]
    ![![1,0,0,0],![0,0,1,0],![0,-1,0,300],![0,0,0,1]] =
    ![![0,-1,0,300],![0,0,-1,0],![1,0,0,374],![0,0,0,1]] := by
  funext i k
  fin_cases i <;> fin_cases k <;>
    norm_num [mul4, Matrix.cons_val_zero, Matrix.cons_val_one, Matrix.head_cons,
      Matrix.cons_val_two, Matrix.cons_val_three, Matrix.tail_cons, Matrix.vecHead,
      Matrix.vecTail]

lemma fk_mul_elbow_4 : mul4 ![![0,-1,0,300],![0,0,-1,0],![1,0,0,374],![0,0,0,1]]
    ![![1,0,0,0],![0,0,-1,0],![0,1,0,0],![0,0,0,1]] =
    ![![0,0,1,300],![0,-1,0,0],![1,0,0,374],![0,0,0,1]] := by
  funext i k
  fin_cases i <;> fin_cases k <;>
    norm_num [mul4, Matrix.cons_val_zero, Matrix.cons_val_one, Matrix.head_cons,
      Matrix.cons_val_two, Matrix.cons_val_three, Matrix.tail_cons, Matrix.vecHead,
      Matrix.vecTail]

lemma fk_mul_elbow_5 : mul4 ![![0,0,1,300],![0,-1,0,0],![1,0,0,374],![0,0,0,1]]
    ![![1,0,0,0],![0,1,0,0],![0,0,1,63.4],![0,0,0,1]] =
    ![![0,0,1,363.4],![0,-1,0,0],![1,0,0,374],![0,0,0,1]] := by
  funext i k
  fin_cases i <;> fin_cases k <;>
    norm_num [mul4, Matrix.cons_val_zero, Matrix.cons_val_one, Matrix.head_cons,
      Matrix.cons_val_two, Matrix.cons_val_three, Matrix.tail_cons, Matrix.vecHead,
      Matrix.vecTail]

lemma fk_mul_elbow_P : mul4 ![![0,0,1,363.4],![0,-1,0,0],![1,0,0,374],![0,0,0,1]] Pmat =
    ![![1,0,0,363.4],![0,0,-1,0],![0,1,0,374],![0,0,0,1]] := by
  funext i k
  fin_cases i <;> fin_cases k <;>
    norm_num [mul4, Pmat, Matrix.cons_val_zero, Matrix.cons_val_one, Matrix.head_cons,
      Matrix.cons_val_two, Matrix.cons_val_three, Matrix.tail_cons, Matrix.vecHead,
      Matrix.vecTail]

lemma fk_elbow_transform : mul4 (cumulative (fk_dh fun i => if i = 1 then (90:ℝ) else 0) 5) Pmat =
    ![![1,0,0,363.4],![0,0,-1,0],![0,1,0,374],![0,0,0,1]] := by
  have hchain : cumulative (fk_dh fun i => if i = 1 then (90:ℝ) else 0) 5 =
      mul4 (mul4 (mul4 (mul4 (mul4 (fk_dh (fun i => if i = 1 then (90:ℝ) else 0) 0)
        (fk_dh (fun i => if i = 1 then (90:ℝ) else 0) 1))
        (fk_dh (fun i => if i = 1 then (90:ℝ) else 0) 2))
        (fk_dh (fun i => if i = 1 then (90:ℝ) else 0) 3))
        (fk_dh (fun i => if i = 1 then (90:ℝ) else 0) 4))
        (fk_dh (fun i => if i = 1 then (90:ℝ) else 0) 5) := rfl
  rw [hchain, fk_dh_elbow_0, fk_dh_elbow_1, fk_dh_elbow_2, fk_dh_elbow_3, fk_dh_elbow_4,
    fk_dh_elbow_5, fk_dh_zero_0, fk_dh_zero_2, fk_dh_zero_3, fk_dh_zero_4, fk_dh_zero_5,
    fk_mul_elbow_1, fk_mul_elbow_2, fk_mul_elbow_3, fk_mul_elbow_4, fk_mul_elbow_5,
    fk_mul_elbow_P]

/-- C3 (forward evidence for the failing input): at joint angles
(0°, 90°, 0°, 0°, 0°, 0°) the forward chain reaches the non-gimbal pose
(363.4, 0, 374, 0, 0, 90); the tool-axis z-component of the actual
transform handed to the extractor is 0; yet calculate_ik2, fed exactly
that pose, reconstructs a tool-axis z-component below −0.8 (because of
its own rotation convention and +0.001° nudge), so the wrist centre it
back-solves is displaced by more than 50 mm from the true one and the
recomposed pose cannot match within the claimed 1e-6 mm / 1e-4°
tolerance. -/
theorem roundtrip_convention_mismatch :
    fk_pose (fun i => if i = 1 then (90:ℝ) else 0) = (363.4, 0, 374, 0, 0, 90) ∧
    (mul4 (cumulative (fk_dh fun i => if i = 1 then (90:ℝ) else 0) 5) Pmat) 2 2 = 0 ∧
    ik2_r33 0 0 90 < -0.8 := by
  refine ⟨?_, ?_, ?_⟩
  · unfold fk_pose pose_from_transform
    rw [fk_elbow_transform]
    have h90 : Real.pi / 2 * 180 / Real.pi = 90 := by
      field_simp
      ring
    norm_num [Matrix.cons_val_zero, Matrix.cons_val_one, Matrix.head_cons, Matrix.cons_val_two,
      Matrix.cons_val_three, Matrix.tail_cons, Matrix.vecHead, Matrix.vecTail, Real.sqrt_one,
      atan2_of_pos one_pos, Real.arctan_zero, atan2_pos_zero one_pos, h90, Prod.mk.injEq]
  · rw [fk_elbow_transform]
    norm_num [Matrix.cons_val_two, Matrix.head_cons, Matrix.tail_cons, Matrix.vecHead,
      Matrix.vecTail]
  · unfold ik2_r33
    have hd0 : (0:ℝ) ≤ ((0:ℝ) + 0.001) * Real.pi / 180 := by positivity
    have hd : ((0:ℝ) + 0.001) * Real.pi / 180 ≤ 0.0001 := by
      have := Real.pi_le_four
      nlinarith
    have hpsi : ((90:ℝ) + 0.001) * Real.pi / 180 =
        Real.pi / 2 + ((0:ℝ) + 0.001) * Real.pi / 180 := by
      ring
    have hsinpsi : Real.sin (Real.pi / 2 + ((0:ℝ) + 0.001) * Real.pi / 180) =
        Real.cos (((0:ℝ) + 0.001) * Real.pi / 180) := by
      have h1 : Real.pi / 2 + ((0:ℝ) + 0.001) * Real.pi / 180 =
          Real.pi / 2 - (-(((0:ℝ) + 0.001) * Real.pi / 180)) := by ring
      rw [h1, Real.sin_pi_div_two_sub, Real.cos_neg]
    rw [hpsi, hsinpsi]
    have hsin : |Real.sin (((0:ℝ) + 0.001) * Real.pi / 180)| ≤
        ((0:ℝ) + 0.001) * Real.pi / 180 := by
      have h2 := Real.abs_sin_le_abs (x := ((0:ℝ) + 0.001) * Real.pi / 180)
      rwa [abs_of_nonneg hd0] at h2
    have hsin' := abs_le.mp hsin
    have hcosd : 1 - (((0:ℝ) + 0.001) * Real.pi / 180) ^ 2 / 2 ≤
        Real.cos (((0:ℝ) + 0.001) * Real.pi / 180) := Real.one_sub_sq_div_two_le_cos
    have hcos1 : Real.cos (((0:ℝ) + 0.001) * Real.pi / 180) ≤ 1 := Real.cos_le_one _
    have hc1 : Real.cos (Real.pi / 2 + ((0:ℝ) + 0.001) * Real.pi / 180) ≤ 1 := Real.cos_le_one _
    have hc2 : -1 ≤ Real.cos (Real.pi / 2 + ((0:ℝ) + 0.001) * Real.pi / 180) :=
      Real.neg_one_le_cos _
    nlinarith [sq_nonneg (Real.sin (((0:ℝ) + 0.001) * Real.pi / 180)),
      hsin'.1, hsin'.2, hd, hd0, hcosd, hcos1, hc1, hc2]

end Theorems

end
